import Mathlib

/-!
Verification of the AlertaVecinal backend (Flask + SQLAlchemy) against its
design specification.  The Python sources are shallowly embedded: floats are
modelled as exact rationals (reals where trigonometry is involved), the
database session as an explicit list-of-rows state, and each route handler as
a pure function from request data and state to a response and a new state.
-/

namespace AlertaVecinal

/-! ## Text normalization (ai_utils._normalize)

Python does `text.lower()`, then `unicodedata.normalize("NFD", text)`, then
drops characters of category Mn.  The embedding models those three steps on
the Basic Latin and Latin-1 ranges, which cover the application's keyword
alphabet; characters outside those ranges are left unchanged. -/

/-- Lowercasing of one character as Python `str.lower` acts on Basic Latin
and Latin-1: `A`-`Z` and `À`-`Þ` (except `×`) shift down by 0x20. -/
def pyLowerChar (c : Char) : Char :=
  if 'A' ≤ c ∧ c ≤ 'Z' then Char.ofNat (c.toNat + 32)
  else if 0xC0 ≤ c.toNat ∧ c.toNat ≤ 0xDE ∧ c.toNat ≠ 0xD7 then Char.ofNat (c.toNat + 32)
  else c

/-- Canonical decomposition (NFD) of one lower-case Latin-1 character into a
base letter followed by a combining mark; unlisted characters decompose to
themselves. -/
def nfdChar (c : Char) : List Char :=
  match c with
  | 'à' => ['a', Char.ofNat 0x300]
  | 'á' => ['a', Char.ofNat 0x301]
  | 'â' => ['a', Char.ofNat 0x302]
  | 'ã' => ['a', Char.ofNat 0x303]
  | 'ä' => ['a', Char.ofNat 0x308]
  | 'å' => ['a', Char.ofNat 0x30A]
  | 'ç' => ['c', Char.ofNat 0x327]
  | 'è' => ['e', Char.ofNat 0x300]
  | 'é' => ['e', Char.ofNat 0x301]
  | 'ê' => ['e', Char.ofNat 0x302]
  | 'ë' => ['e', Char.ofNat 0x308]
  | 'ì' => ['i', Char.ofNat 0x300]
  | 'í' => ['i', Char.ofNat 0x301]
  | 'î' => ['i', Char.ofNat 0x302]
  | 'ï' => ['i', Char.ofNat 0x308]
  | 'ñ' => ['n', Char.ofNat 0x303]
  | 'ò' => ['o', Char.ofNat 0x300]
  | 'ó' => ['o', Char.ofNat 0x301]
  | 'ô' => ['o', Char.ofNat 0x302]
  | 'õ' => ['o', Char.ofNat 0x303]
  | 'ö' => ['o', Char.ofNat 0x308]
  | 'ù' => ['u', Char.ofNat 0x300]
  | 'ú' => ['u', Char.ofNat 0x301]
  | 'û' => ['u', Char.ofNat 0x302]
  | 'ü' => ['u', Char.ofNat 0x308]
  | 'ý' => ['y', Char.ofNat 0x301]
  | 'ÿ' => ['y', Char.ofNat 0x308]
  | _ => [c]

/-- Test for the Unicode category Mn on the combining diacritical marks
block, the only Mn characters the decompositions above produce. -/
def combiningMark (c : Char) : Bool :=
  decide (0x300 ≤ c.toNat ∧ c.toNat ≤ 0x36F)

/-- Embedding of `ai_utils._normalize`: lower-case, NFD-decompose, then drop
combining marks. -/
def pyNormalize (s : List Char) : List Char :=
  (((s.map pyLowerChar).map nfdChar).flatten).filter (fun c => !combiningMark c)

/-! ## Text risk classifier (ai_utils.analyze_text) -/

/-- Python substring test `w in text` on character lists. -/
def occursIn (w : List Char) : List Char → Bool
  | [] => w.isEmpty
  | c :: rest => w.isPrefixOf (c :: rest) || occursIn w rest

/-- Embedding of `contains_any` from `ai_utils.analyze_text`. -/
def containsAny (ws : List String) (text : List Char) : Bool :=
  ws.any (fun w => occursIn w.data text)

def WEAPON_KEYWORDS : List String :=
  ["arma", "pistola", "revolver", "revolv", "cuchill", "tiro", "dispar",
   "fusil", "escopet"]

def VEHICLE_KEYWORDS : List String :=
  ["auto", "moto", "camionet", "vehicul", "coche", "taxi", "remis",
   "camion", "furgon", "pick up", "pickup"]

def KIDNAP_KEYWORDS : List String :=
  ["secuest", "rapt", "privacion de la libertad", "levantar", "levantaron"]

def ROBBERY_KEYWORDS : List String :=
  ["robo", "robar", "robaron", "rob", "afano", "choreo", "chorro",
   "asalto", "asalt", "hurto", "arrebato"]

def VIOLENCE_KEYWORDS : List String :=
  ["violenc", "golpe", "golp", "pelea", "agres", "discut", "ataque"]

/-- Result record of `ai_utils.analyze_text`. -/
structure TextAnalysis where
  has_weapon : Bool
  has_vehicle : Bool
  risk_level : String
  ai_raw_summary : String
  ai_confidence : ℚ
deriving DecidableEq

/-- Body of `ai_utils.analyze_text` after normalization: keyword flags, the
risk-level decision chain, and the canned summary and confidence per level. -/
def analyzeCore (text : List Char) : TextAnalysis :=
  let has_weapon := containsAny WEAPON_KEYWORDS text
  let has_vehicle := containsAny VEHICLE_KEYWORDS text
  let mentions_kidnap := containsAny KIDNAP_KEYWORDS text
  let mentions_robbery := containsAny ROBBERY_KEYWORDS text
  let mentions_violence := containsAny VIOLENCE_KEYWORDS text
  let risk_level :=
    if has_weapon && has_vehicle then "alto"
    else if has_weapon && (mentions_robbery || mentions_violence || mentions_kidnap) then "alto"
    else if mentions_kidnap then "alto"
    else if mentions_robbery || mentions_violence then "medio"
    else "bajo"
  let summary :=
    if risk_level == "alto" then
      "Texto indica posible situación de ALTO riesgo (arma/secuestro/robo grave)."
    else if risk_level == "medio" then
      "Texto indica incidente relevante, riesgo MEDIO (robo/violencia sin arma clara)."
    else
      "Texto sin indicadores claros de violencia grave (riesgo BAJO)."
  let confidence : ℚ :=
    if risk_level == "alto" then mkRat 8 10
    else if risk_level == "medio" then mkRat 65 100
    else mkRat 45 100
  { has_weapon := has_weapon
    has_vehicle := has_vehicle
    risk_level := risk_level
    ai_raw_summary := summary
    ai_confidence := confidence }

/-- Embedding of `ai_utils.analyze_text`; `none` models a `None` description.
Python `description or ""` maps both `None` and `""` to `""`. -/
def analyze_text (description : Option String) : TextAnalysis :=
  analyzeCore (pyNormalize (description.getD "").data)

/-! ## Theorems about the text classifier -/

/-- C2: a description whose normalized text contains a weapon keyword and a
vehicle keyword is classified with risk level "alto" (high). -/
theorem analyze_text_weapon_vehicle_alto (d : String)
    (hw : containsAny WEAPON_KEYWORDS (pyNormalize d.data) = true)
    (hv : containsAny VEHICLE_KEYWORDS (pyNormalize d.data) = true) :
    (analyze_text (some d)).risk_level = "alto" := by
  simp [analyze_text, analyzeCore, hw, hv]

/-- Witness for C2 at a concrete description containing "pistola" and
"auto". -/
theorem analyze_text_weapon_vehicle_alto_witness :
    containsAny WEAPON_KEYWORDS (pyNormalize "Robaron con pistola en un auto".data) = true ∧
    containsAny VEHICLE_KEYWORDS (pyNormalize "Robaron con pistola en un auto".data) = true ∧
    (analyze_text (some "Robaron con pistola en un auto")).risk_level = "alto" :=
  ⟨by decide, by decide,
   analyze_text_weapon_vehicle_alto "Robaron con pistola en un auto" (by decide) (by decide)⟩

/-- C6: the classifier is invariant under any change of the description that
leaves the normalized (lower-cased, accent-stripped) text unchanged; all five
output fields coincide. -/
theorem analyze_text_normalize_invariant (s t : String)
    (h : pyNormalize s.data = pyNormalize t.data) :
    analyze_text (some s) = analyze_text (some t) := by
  simp only [analyze_text, Option.getD_some]
  rw [h]

/-- Witness for C6: "ROBÓ" and "robo" normalize identically and classify
identically. -/
theorem analyze_text_normalize_invariant_witness :
    pyNormalize "ROBÓ".data = pyNormalize "robo".data ∧
    analyze_text (some "ROBÓ") = analyze_text (some "robo") :=
  ⟨by decide, analyze_text_normalize_invariant "ROBÓ" "robo" (by decide)⟩

/-- C8: an absent (None) or empty description is classified "bajo" (low)
with confidence exactly 0.45. -/
theorem analyze_text_empty_low :
    (analyze_text none).risk_level = "bajo" ∧
    (analyze_text none).ai_confidence = 0.45 ∧
    (analyze_text (some "")).risk_level = "bajo" ∧
    (analyze_text (some "")).ai_confidence = 0.45 := by
  refine ⟨by decide, ?_, by decide, ?_⟩ <;>
  · rw [show (0.45 : ℚ) = mkRat 45 100 by rw [Rat.mkRat_eq_div]; norm_num]
    decide

/-! ## Image risk bucketing (ai_vision.compute_risk_and_summary)

Detections are the entries of the `predictions` array of the Roboflow
response; each carries `det.get("class", "")` and
`float(det.get("confidence", 0.0))`.  Confidences are modelled as exact
rationals. -/

/-- One entry of the `predictions` list. -/
structure Detection where
  label : String
  confidence : ℚ
deriving DecidableEq

/-- Python `pred_json.get("predictions") or []`. -/
def getPredictions (pred_json : Option (List Detection)) : List Detection :=
  pred_json.getD []

/-- Test `str(det.get("class", "")).lower() in ("handgun", "gun", "pistol",
"revolver")`. -/
def isWeaponLabel (det : Detection) : Bool :=
  let l : String := ⟨det.label.data.map pyLowerChar⟩
  l == "handgun" || l == "gun" || l == "pistol" || l == "revolver"

/-- One iteration of the detection loop: remember that a weapon was seen and
keep the largest weapon confidence. -/
def scanStep (st : Bool × ℚ) (det : Detection) : Bool × ℚ :=
  if isWeaponLabel det then (true, if st.2 < det.confidence then det.confidence else st.2)
  else st

/-- The detection loop of `compute_risk_and_summary`, started from
`weapon_detected = False`, `max_conf = 0.0`. -/
def weaponScan (detections : List Detection) : Bool × ℚ :=
  detections.foldl scanStep (false, 0)

/-- Confidence bucketing used by `compute_risk_and_summary`:
at least 0.8 is "alto", at least 0.5 is "medio", anything else "bajo". -/
def riskBucket (c : ℚ) : String :=
  if mkRat 8 10 ≤ c then "alto" else if mkRat 1 2 ≤ c then "medio" else "bajo"

/-- Embedding of `ai_vision.compute_risk_and_summary`: returns the risk
level, the weapon flag, and the summary text. -/
def compute_risk_and_summary (pred_json : Option (List Detection)) :
    String × Bool × String :=
  let detections := getPredictions pred_json
  if detections.isEmpty then
    ("bajo", false, "Análisis IA (imagen): no se detectaron armas. Riesgo BAJO.")
  else
    let s := weaponScan detections
    if s.1 = false then
      ("bajo", false,
       "Análisis IA (imagen): se detectaron objetos, pero no armas claras. Riesgo BAJO.")
    else if mkRat 8 10 ≤ s.2 then
      ("alto", true,
       "Análisis IA (imagen): se detectó al menos un arma de fuego con alta confianza. Riesgo ALTO.")
    else if mkRat 1 2 ≤ s.2 then
      ("medio", true,
       "Análisis IA (imagen): se detectó posible arma de fuego con confianza media. Riesgo MEDIO.")
    else
      ("bajo", true,
       "Análisis IA (imagen): detecciones poco claras; se considera Riesgo BAJO.")

lemma foldl_scanStep_fst (ps : List Detection) (st : Bool × ℚ) :
    (ps.foldl scanStep st).1 = (st.1 || ps.any isWeaponLabel) := by
  induction ps generalizing st with
  | nil => simp
  | cons d rest ih =>
    simp only [List.foldl_cons, List.any_cons, ih]
    by_cases h : isWeaponLabel d = true <;>
      simp [scanStep, h, Bool.or_assoc]

lemma foldl_scanStep_id (ps : List Detection) (st : Bool × ℚ)
    (h : ps.any isWeaponLabel = false) : ps.foldl scanStep st = st := by
  induction ps generalizing st with
  | nil => rfl
  | cons d rest ih =>
    simp only [List.any_cons, Bool.or_eq_false_iff] at h
    simp only [List.foldl_cons, scanStep, h.1, Bool.false_eq_true, if_false]
    exact ih st h.2

lemma weaponScan_fst (ps : List Detection) :
    (weaponScan ps).1 = ps.any isWeaponLabel := by
  simp [weaponScan, foldl_scanStep_fst]

lemma weaponScan_snd_of_no_weapon (ps : List Detection)
    (h : ps.any isWeaponLabel = false) : (weaponScan ps).2 = 0 := by
  simp [weaponScan, foldl_scanStep_id ps _ h]

/-- C5: with no detections the result is low risk and no weapon; with
detections present, the risk level is exactly the bucketing of the maximal
weapon confidence (at least 0.8 high, at least 0.5 medium, else low — the
scan leaves the confidence at 0 when no weapon label occurs), and the weapon
flag holds exactly when some detection carries a weapon label. -/
theorem compute_risk_bucketing (pred_json : Option (List Detection)) :
    ((getPredictions pred_json).isEmpty = true →
      (compute_risk_and_summary pred_json).1 = "bajo" ∧
      (compute_risk_and_summary pred_json).2.1 = false) ∧
    ((getPredictions pred_json).isEmpty = false →
      (compute_risk_and_summary pred_json).1 =
        riskBucket (weaponScan (getPredictions pred_json)).2 ∧
      (compute_risk_and_summary pred_json).2.1 =
        (getPredictions pred_json).any isWeaponLabel) := by
  constructor
  · intro h
    simp [compute_risk_and_summary, h]
  · intro h
    by_cases hw : (getPredictions pred_json).any isWeaponLabel = true
    · have hfst : (weaponScan (getPredictions pred_json)).1 = true := by
        rw [weaponScan_fst]; exact hw
      simp only [compute_risk_and_summary, h, Bool.false_eq_true, if_false,
        hfst, riskBucket, hw]
      constructor
      · by_cases h8 : mkRat 8 10 ≤ (weaponScan (getPredictions pred_json)).2 <;>
          by_cases h5 : mkRat 1 2 ≤ (weaponScan (getPredictions pred_json)).2 <;>
          simp [h8, h5]
      · by_cases h8 : mkRat 8 10 ≤ (weaponScan (getPredictions pred_json)).2 <;>
          by_cases h5 : mkRat 1 2 ≤ (weaponScan (getPredictions pred_json)).2 <;>
          simp [h8, h5]
    · have hw' : (getPredictions pred_json).any isWeaponLabel = false := by
        simpa using hw
      have hfst : (weaponScan (getPredictions pred_json)).1 = false := by
        rw [weaponScan_fst]; exact hw'
      have hsnd := weaponScan_snd_of_no_weapon _ hw'
      simp [compute_risk_and_summary, h, hfst, hsnd, riskBucket, hw']
      decide

/-- Witness for C5 at one detection labelled "Gun" with confidence 0.9. -/
theorem compute_risk_bucketing_witness :
    (compute_risk_and_summary (some [⟨"Gun", mkRat 9 10⟩])).1 =
      riskBucket (weaponScan (getPredictions (some [⟨"Gun", mkRat 9 10⟩]))).2 ∧
    (compute_risk_and_summary (some [⟨"Gun", mkRat 9 10⟩])).2.1 =
      (getPredictions (some [⟨"Gun", mkRat 9 10⟩])).any isWeaponLabel :=
  (compute_risk_bucketing (some [⟨"Gun", mkRat 9 10⟩])).2 (by decide)

/-! ## Data model and application state (models.py, app.py)

Rows of the `reports` and `panic_events` tables; the database session is a
list of rows per table together with the autoincrement counters and a clock
supplying `datetime.utcnow()`. -/

/-- Row of the `reports` table (models.Report). -/
structure Report where
  id : Nat
  report_type : String
  description : String
  latitude : ℚ
  longitude : ℚ
  image_path : Option String
  created_at : Nat
  risk_level : String
  has_weapon : Bool
  has_vehicle : Bool
  plate_text : Option String
  status : String
  source : String
  ai_raw_summary : Option String
  ai_confidence : ℚ
deriving DecidableEq

/-- Row of the `panic_events` table (models.PanicEvent). -/
structure PanicEvent where
  id : Nat
  report_id : Nat
  user_id : Option Nat
  mode : String
  under_duress : Bool
  created_at : Nat
deriving DecidableEq

/-- The persistent state visible to the route handlers. -/
structure AppState where
  reports : List Report
  panicEvents : List PanicEvent
  nextReportId : Nat
  nextEventId : Nat
  now : Nat
deriving DecidableEq

/-- HTTP status code, `ok` flag and `error` field of a JSON response. -/
structure ApiResponse where
  code : Nat
  ok : Bool
  error : Option String
deriving DecidableEq

/-! ## Report creation (app.create_report) -/

/-- The fields of the `ai_vision.analyze_image` result that
`app.create_report` reads. -/
structure AiInfo where
  weapon_detected : Bool
  risk_level : String
  ai_raw_summary : Option String
  plate_text : Option String
deriving DecidableEq

/-- The fallback dict `create_report` builds when `analyze_image` raises. -/
def aiFailureInfo : AiInfo :=
  { weapon_detected := false
    risk_level := "bajo"
    ai_raw_summary :=
      some "Análisis IA (imagen): no se pudo procesar la evidencia. Riesgo BAJO."
    plate_text := none }

/-- Embedding of the `POST /api/reports` handler `app.create_report`.
`latitude`/`longitude` are the results of `float(...)` (`none` models a
missing or unparseable value), `imageFilename` the uploaded file's name, and
`aiOutcome` the outcome of the `analyze_image` call (`Except.error` models a
raised exception). -/
def create_report (st : AppState)
    (report_type description plate_text : Option String)
    (latitude longitude : Option ℚ) (imageFilename : Option String)
    (aiOutcome : Except Unit AiInfo) : ApiResponse × AppState :=
  let rt0 := (report_type.getD "").trim
  let rt := if rt0.isEmpty then "emergencia" else rt0
  let desc := (description.getD "").trim
  let pt0raw := (plate_text.getD "").trim
  let pt0 : Option String := if pt0raw.isEmpty then none else some pt0raw
  match latitude, longitude with
  | some lat, some lng =>
    let present : Bool := match imageFilename with
      | some f => !f.isEmpty
      | none => false
    let image_path : Option String :=
      if present then some ("/api/uploads/" ++ (imageFilename.getD "").replace " " "_")
      else none
    let ai_info : AiInfo :=
      if present then
        match aiOutcome with
        | .ok info => info
        | .error _ => aiFailureInfo
      else
        { weapon_detected := false
          risk_level := "bajo"
          ai_raw_summary := some "Análisis IA: sin imagen adjunta. Riesgo BAJO."
          plate_text := pt0 }
    let analysis_text := ai_info.ai_raw_summary.getD ""
    let pt1 : Option String := match ai_info.plate_text with
      | some p => if p.isEmpty then pt0 else some p
      | none => pt0
    let description_for_db :=
      if analysis_text.isEmpty then desc
      else if desc.isEmpty then analysis_text
      else desc ++ "\n" ++ analysis_text
    let report : Report :=
      { id := st.nextReportId
        report_type := rt
        description := description_for_db
        latitude := lat
        longitude := lng
        image_path := image_path
        created_at := st.now
        risk_level := ai_info.risk_level
        has_weapon := ai_info.weapon_detected
        has_vehicle := pt1.isSome
        plate_text := pt1
        status := "pendiente"
        source := "ciudadano"
        ai_raw_summary := none
        ai_confidence := 0 }
    ({ code := 201, ok := true, error := none },
     { st with reports := st.reports ++ [report], nextReportId := st.nextReportId + 1 })
  | _, _ => ({ code := 400, ok := false, error := some "Latitud/Longitud inválidas" }, st)

/-- C1: when an image is attached and the vision analysis raises, the request
still succeeds (201, ok) and the report is persisted with risk level "bajo"
and no weapon flag. -/
theorem create_report_ai_failure (st : AppState)
    (report_type description plate_text : Option String) (lat lng : ℚ)
    (fname : String) (hf : fname.isEmpty = false) :
    let out := create_report st report_type description plate_text
        (some lat) (some lng) (some fname) (.error ())
    out.1.code = 201 ∧ out.1.ok = true ∧
    ∃ rep, out.2.reports = st.reports ++ [rep] ∧
      rep.risk_level = "bajo" ∧ rep.has_weapon = false := by
  simp [create_report, hf, aiFailureInfo]

/-- Witness for C1 at a concrete request with an attached image. -/
theorem create_report_ai_failure_witness :
    let out := create_report ⟨[], [], 1, 1, 0⟩ (some "robo") (some "asalto") none
        (some 3) (some 4) (some "foto.jpg") (.error ())
    out.1.code = 201 ∧ out.1.ok = true ∧
    ∃ rep, out.2.reports = [] ++ [rep] ∧
      rep.risk_level = "bajo" ∧ rep.has_weapon = false :=
  create_report_ai_failure ⟨[], [], 1, 1, 0⟩ (some "robo") (some "asalto") none
    3 4 "foto.jpg" (by decide)

/-! ## Admin status change (app.change_status) -/

/-- Primary-key lookup `Report.query.get(report_id)` on the reports table. -/
def findReport (report_id : Nat) : List Report → Option Report
  | [] => none
  | r :: rest => if r.id == report_id then some r else findReport report_id rest

/-- Mutation of the fetched row followed by commit: the report with the given
primary key gets the new status, everything else is untouched. -/
def updateStatus (report_id : Nat) (s : String) : List Report → List Report
  | [] => []
  | r :: rest =>
    if r.id == report_id then { r with status := s } :: rest
    else r :: updateStatus report_id s rest

/-- Embedding of the `PATCH /api/admin/reports/<id>/status` handler
`app.change_status`; `statusArg` is `data.get("status")`. -/
def change_status (st : AppState) (report_id : Nat) (statusArg : Option String) :
    ApiResponse × AppState :=
  match findReport report_id st.reports with
  | none => ({ code := 404, ok := false, error := none }, st)
  | some _ =>
    match statusArg with
    | some v =>
      if v = "pendiente" ∨ v = "verificado" ∨ v = "falso" then
        ({ code := 200, ok := true, error := none },
         { st with reports := updateStatus report_id v st.reports })
      else ({ code := 400, ok := false, error := some "Estado inválido" }, st)
    | none => ({ code := 400, ok := false, error := some "Estado inválido" }, st)

lemma findReport_decomp (s : String) (report_id : Nat) (l : List Report)
    (r : Report) (h : findReport report_id l = some r) :
    ∃ pre post, l = pre ++ r :: post ∧ r.id = report_id ∧
      (∀ x ∈ pre, x.id ≠ report_id) ∧
      updateStatus report_id s l = pre ++ { r with status := s } :: post := by
  induction l with
  | nil => simp [findReport] at h
  | cons x xs ih =>
    by_cases hp : (x.id == report_id) = true
    · rw [findReport, if_pos hp] at h
      obtain rfl : x = r := by injection h
      refine ⟨[], xs, by simp, by simpa using hp, by simp, ?_⟩
      rw [updateStatus, if_pos hp]
      simp
    · rw [findReport, if_neg hp] at h
      obtain ⟨pre, post, e1, e2, e3, e4⟩ := ih h
      refine ⟨x :: pre, post, by simp [e1], e2, ?_, ?_⟩
      · intro y hy
        rcases List.mem_cons.mp hy with rfl | hy'
        · simpa using hp
        · exact e3 y hy'
      · rw [updateStatus, if_neg hp, e4]
        simp

/-- C4: a status-change request on an existing report with a status value
outside {pendiente, verificado, falso} is answered 400 with an error message
and leaves the state (in particular the report's status) untouched. -/
theorem change_status_invalid_rejected (st : AppState) (report_id : Nat)
    (r : Report) (v : String)
    (hfind : findReport report_id st.reports = some r)
    (hv : ¬ (v = "pendiente" ∨ v = "verificado" ∨ v = "falso")) :
    change_status st report_id (some v) =
      ({ code := 400, ok := false, error := some "Estado inválido" }, st) := by
  rw [change_status, hfind]
  simp [hv]

/-- Sample report used by concrete witnesses. -/
def sampleReport : Report :=
  { id := 1
    report_type := "emergencia"
    description := "robo en la esquina"
    latitude := 1
    longitude := 2
    image_path := none
    created_at := 0
    risk_level := "bajo"
    has_weapon := false
    has_vehicle := false
    plate_text := none
    status := "pendiente"
    source := "ciudadano"
    ai_raw_summary := none
    ai_confidence := 0 }

/-- Sample state with one stored report, used by concrete witnesses. -/
def sampleState : AppState :=
  { reports := [sampleReport]
    panicEvents := []
    nextReportId := 2
    nextEventId := 1
    now := 7 }

/-- Witness for C4: status value "aprobado" is rejected and nothing changes. -/
theorem change_status_invalid_rejected_witness :
    change_status sampleState 1 (some "aprobado") =
      ({ code := 400, ok := false, error := some "Estado inválido" }, sampleState) :=
  change_status_invalid_rejected sampleState 1 sampleReport "aprobado"
    (by decide) (by decide)

/-- C10: a successful status change only rewrites the status of the targeted
report: the state splits as `pre ++ target :: post`, the new state is
`pre ++ (target with the new status) :: post` (a record update touching no
other field), and the panic events, counters and clock are untouched. -/
theorem change_status_frame (st : AppState) (report_id : Nat) (s : String)
    (r : Report) (hfind : findReport report_id st.reports = some r)
    (hs : s = "pendiente" ∨ s = "verificado" ∨ s = "falso") :
    let out := change_status st report_id (some s)
    out.1.code = 200 ∧ out.1.ok = true ∧
    out.2.panicEvents = st.panicEvents ∧
    out.2.nextReportId = st.nextReportId ∧
    out.2.nextEventId = st.nextEventId ∧
    out.2.now = st.now ∧
    ∃ pre post, st.reports = pre ++ r :: post ∧ r.id = report_id ∧
      (∀ x ∈ pre, x.id ≠ report_id) ∧
      out.2.reports = pre ++ { r with status := s } :: post := by
  obtain ⟨pre, post, e1, e2, e3, e4⟩ := findReport_decomp s report_id st.reports r hfind
  rw [show (change_status st report_id (some s)) =
      ({ code := 200, ok := true, error := none },
       { st with reports := updateStatus report_id s st.reports }) by
    rw [change_status, hfind]; simp [hs]]
  exact ⟨rfl, rfl, rfl, rfl, rfl, rfl, pre, post, e1, e2, e3, e4⟩

/-- Witness for C10 at the sample state, setting status "verificado". -/
theorem change_status_frame_witness :
    let out := change_status sampleState 1 (some "verificado")
    out.1.code = 200 ∧ out.1.ok = true ∧
    out.2.panicEvents = sampleState.panicEvents ∧
    out.2.nextReportId = sampleState.nextReportId ∧
    out.2.nextEventId = sampleState.nextEventId ∧
    out.2.now = sampleState.now ∧
    ∃ pre post, sampleState.reports = pre ++ sampleReport :: post ∧
      sampleReport.id = 1 ∧
      (∀ x ∈ pre, x.id ≠ 1) ∧
      out.2.reports = pre ++ { sampleReport with status := "verificado" } :: post :=
  change_status_frame sampleState 1 "verificado" sampleReport
    (by decide) (by decide)

/-! ## Panic button (app.panic) -/

/-- Embedding of the `POST /api/panic` handler `app.panic`. -/
def panic (st : AppState) (latitude longitude : Option ℚ)
    (under_duress : Bool) (mode : Option String) (user_id : Option Nat) :
    ApiResponse × AppState :=
  match latitude, longitude with
  | some lat, some lng =>
    let md0 := (mode.getD "normal").trim
    let md := if md0.isEmpty then "normal" else md0
    let report : Report :=
      { id := st.nextReportId
        report_type := "panico"
        description := "Botón de pánico activado desde la app."
        latitude := lat
        longitude := lng
        image_path := none
        created_at := st.now
        risk_level := "alto"
        has_weapon := false
        has_vehicle := false
        plate_text := none
        status := "pendiente"
        source := "panico"
        ai_raw_summary := none
        ai_confidence := 0 }
    let ev : PanicEvent :=
      { id := st.nextEventId
        report_id := report.id
        user_id := user_id
        mode := md
        under_duress := under_duress
        created_at := report.created_at }
    ({ code := 200, ok := true, error := none },
     { st with reports := st.reports ++ [report],
               panicEvents := st.panicEvents ++ [ev],
               nextReportId := st.nextReportId + 1,
               nextEventId := st.nextEventId + 1 })
  | _, _ => ({ code := 400, ok := false, error := some "Coordenadas inválidas" }, st)

/-- C9: a successful panic request appends one report with risk level "alto"
and source "panico" and one panic event whose report_id is that report's id. -/
theorem panic_creates_linked_high_risk_report (st : AppState) (lat lng : ℚ)
    (ud : Bool) (mode : Option String) (uid : Option Nat) :
    let out := panic st (some lat) (some lng) ud mode uid
    out.1.ok = true ∧
    ∃ rep ev, out.2.reports = st.reports ++ [rep] ∧
      rep.risk_level = "alto" ∧ rep.source = "panico" ∧
      out.2.panicEvents = st.panicEvents ++ [ev] ∧
      ev.report_id = rep.id := by
  exact ⟨rfl, _, _, rfl, rfl, rfl, rfl, rfl⟩

/-! ## Heatmap aggregation (app.heatmap)

Python `round(x, 3)` rounds to three decimals with ties to even; coordinates
are modelled as exact rationals. -/

/-- Python `round` to an integer: nearest, ties to the even integer. -/
def roundHalfEven (x : ℚ) : ℤ :=
  let n := ⌊x⌋
  let f := x - n
  if f < mkRat 1 2 then n
  else if mkRat 1 2 < f then n + 1
  else if n % 2 = 0 then n else n + 1

/-- Python `round(x, 3)`. -/
def round3 (x : ℚ) : ℚ := (roundHalfEven (x * 1000) : ℚ) / 1000

/-- The grouping key `(round(r.latitude, 3), round(r.longitude, 3))`. -/
def bucketKey (r : Report) : ℚ × ℚ := (round3 r.latitude, round3 r.longitude)

/-- One loop iteration over `buckets`: `setdefault` then increment.  A Python
dict keeps one entry per key, in insertion order. -/
def bumpBucket (k : ℚ × ℚ) : List ((ℚ × ℚ) × Nat) → List ((ℚ × ℚ) × Nat)
  | [] => [(k, 1)]
  | (q, c) :: rest =>
    if q = k then (q, c + 1) :: rest else (q, c) :: bumpBucket k rest

/-- Embedding of the `GET /api/heatmap` handler: the returned points, as
(rounded latitude, rounded longitude) keys with their counts. -/
def heatmap (reports : List Report) : List ((ℚ × ℚ) × Nat) :=
  reports.foldl (fun b r => bumpBucket (bucketKey r) b) []

/-- Invariant tying a bucket list to a counting function: keys are unique and
an entry `(k, c)` is present exactly when `c` is the (positive) count of `k`. -/
def GoodBuckets (b : List ((ℚ × ℚ) × Nat)) (g : (ℚ × ℚ) → Nat) : Prop :=
  ((b.map Prod.fst).Nodup) ∧ ∀ k c, ((k, c) ∈ b ↔ (g k = c ∧ c ≠ 0))

lemma goodBuckets_congr (b : List ((ℚ × ℚ) × Nat)) (g g' : (ℚ × ℚ) → Nat)
    (hg : ∀ k, g k = g' k) (h : GoodBuckets b g) : GoodBuckets b g' :=
  ⟨h.1, fun k c => by rw [← hg k]; exact h.2 k c⟩

lemma keys_bumpBucket (k : ℚ × ℚ) (b : List ((ℚ × ℚ) × Nat)) :
    (bumpBucket k b).map Prod.fst =
      if k ∈ b.map Prod.fst then b.map Prod.fst else b.map Prod.fst ++ [k] := by
  induction b with
  | nil => simp [bumpBucket]
  | cons p rest ih =>
    obtain ⟨q, c⟩ := p
    by_cases h : q = k
    · subst h
      simp [bumpBucket]
    · have h' : ¬ (k = q) := fun e => h e.symm
      by_cases hm : k ∈ rest.map Prod.fst <;>
        simp [bumpBucket, h, h', hm, ih]

/-- Pointwise increment of a counting function at one key. -/
def addOne (g : (ℚ × ℚ) → Nat) (k : ℚ × ℚ) : (ℚ × ℚ) → Nat :=
  fun q => if q = k then g q + 1 else g q

/-- Pointwise erasure of a counting function at one key. -/
def maskKey (g : (ℚ × ℚ) → Nat) (k : ℚ × ℚ) : (ℚ × ℚ) → Nat :=
  fun q => if q = k then 0 else g q

lemma goodBuckets_bump (k : ℚ × ℚ) (b : List ((ℚ × ℚ) × Nat))
    (g : (ℚ × ℚ) → Nat) (h : GoodBuckets b g) :
    GoodBuckets (bumpBucket k b) (addOne g k) := by
  induction b generalizing g with
  | nil =>
    have hzero : ∀ q, g q = 0 := by
      intro q
      by_contra hq
      exact absurd ((h.2 q (g q)).mpr ⟨rfl, hq⟩) (List.not_mem_nil _)
    constructor
    · simp [bumpBucket]
    · intro q c
      simp only [bumpBucket, List.mem_singleton, Prod.mk.injEq, addOne]
      constructor
      · rintro ⟨rfl, rfl⟩
        simp [hzero]
      · rintro ⟨hc, hc0⟩
        by_cases hqk : q = k
        · subst hqk
          rw [if_pos rfl, hzero q] at hc
          exact ⟨rfl, hc.symm⟩
        · rw [if_neg hqk, hzero q] at hc
          exact absurd hc.symm hc0
  | cons p rest ih =>
    obtain ⟨q0, c0⟩ := p
    have hkeys : ((q0, c0) :: rest).map Prod.fst = q0 :: rest.map Prod.fst := by
      simp
    have hnd0 : (q0 :: rest.map Prod.fst).Nodup := by
      rw [← hkeys]
      exact h.1
    have hnd := List.nodup_cons.mp hnd0
    have hmem := h.2
    have hc0 : g q0 = c0 ∧ c0 ≠ 0 := (hmem q0 c0).mp (List.mem_cons_self _ _)
    by_cases hk : q0 = k
    · subst hk
      have hb : bumpBucket q0 ((q0, c0) :: rest) = (q0, c0 + 1) :: rest := by
        simp [bumpBucket]
      rw [hb]
      constructor
      · simpa using hnd0
      · intro q c
        have hnotin : ∀ c', (q0, c') ∉ rest := fun c' hc' =>
          hnd.1 (List.mem_map.mpr ⟨(q0, c'), hc', rfl⟩)
        simp only [List.mem_cons, Prod.mk.injEq, addOne]
        constructor
        · rintro (⟨rfl, rfl⟩ | hq)
          · rw [if_pos rfl, hc0.1]
            exact ⟨rfl, by omega⟩
          · have hqv := (hmem q c).mp (List.mem_cons.mpr (Or.inr hq))
            have hqk : q ≠ q0 := by
              rintro rfl
              exact hnotin c hq
            rw [if_neg hqk]
            exact hqv
        · rintro ⟨hgc, hc0'⟩
          by_cases hqk : q = q0
          · subst hqk
            rw [if_pos rfl] at hgc
            exact Or.inl ⟨rfl, by rw [← hgc, hc0.1]⟩
          · rw [if_neg hqk] at hgc
            have := (hmem q c).mpr ⟨hgc, hc0'⟩
            rcases List.mem_cons.mp this with heq | h2
            · exact absurd (congrArg Prod.fst heq) hqk
            · exact Or.inr h2
    · have hb : bumpBucket k ((q0, c0) :: rest) = (q0, c0) :: bumpBucket k rest := by
        simp [bumpBucket, hk]
      rw [hb]
      have hrest : GoodBuckets rest (maskKey g q0) := by
        constructor
        · exact hnd.2
        · intro q c
          simp only [maskKey]
          constructor
          · intro hq
            have hqv := (hmem q c).mp (List.mem_cons.mpr (Or.inr hq))
            have hqk : q ≠ q0 := by
              rintro rfl
              exact hnd.1 (List.mem_map.mpr ⟨(q, c), hq, rfl⟩)
            rw [if_neg hqk]
            exact hqv
          · rintro ⟨hgc, hc0'⟩
            by_cases hqk : q = q0
            · rw [if_pos hqk] at hgc
              exact absurd hgc.symm hc0'
            · rw [if_neg hqk] at hgc
              have := (hmem q c).mpr ⟨hgc, hc0'⟩
              rcases List.mem_cons.mp this with heq | h2
              · exact absurd (congrArg Prod.fst heq) hqk
              · exact h2
      have hbump := ih _ hrest
      have hq0_keys : q0 ∉ (bumpBucket k rest).map Prod.fst := by
        rw [keys_bumpBucket]
        by_cases hm : k ∈ rest.map Prod.fst
        · rw [if_pos hm]
          exact hnd.1
        · rw [if_neg hm]
          intro hc'
          rcases List.mem_append.mp hc' with h1 | h2
          · exact hnd.1 h1
          · exact hk (by simpa using h2)
      constructor
      · have hkeys2 : ((q0, c0) :: bumpBucket k rest).map Prod.fst =
            q0 :: (bumpBucket k rest).map Prod.fst := by
          simp
        rw [hkeys2]
        exact List.nodup_cons.mpr ⟨hq0_keys, hbump.1⟩
      · intro q c
        simp only [List.mem_cons, Prod.mk.injEq, addOne]
        constructor
        · rintro (⟨rfl, rfl⟩ | hq)
          · rw [if_neg hk]
            exact hc0
          · have hv := (hbump.2 q c).mp hq
            have hqq0 : q ≠ q0 := by
              rintro rfl
              exact hq0_keys (List.mem_map.mpr ⟨(q, c), hq, rfl⟩)
            simp only [addOne, maskKey, if_neg hqq0] at hv
            exact hv
        · rintro ⟨hgc, hc0'⟩
          by_cases hqq0 : q = q0
          · subst hqq0
            rw [if_neg hk] at hgc
            exact Or.inl ⟨rfl, by rw [← hgc, hc0.1]⟩
          · refine Or.inr ((hbump.2 q c).mpr ⟨?_, hc0'⟩)
            simp only [addOne, maskKey, if_neg hqq0]
            exact hgc

lemma heatmap_good (reports : List Report) :
    GoodBuckets (heatmap reports)
      (fun k => reports.countP (fun r => decide (bucketKey r = k))) := by
  suffices h : ∀ (rs : List Report) (b : List ((ℚ × ℚ) × Nat)) (g : (ℚ × ℚ) → Nat),
      GoodBuckets b g →
      GoodBuckets (rs.foldl (fun b r => bumpBucket (bucketKey r) b) b)
        (fun k => g k + rs.countP (fun r => decide (bucketKey r = k))) by
    have h0 : GoodBuckets [] (fun _ => 0) := ⟨by simp, by simp⟩
    exact goodBuckets_congr _ _ _ (fun k => by simp) (h reports [] _ h0)
  intro rs
  induction rs with
  | nil =>
    intro b g h
    exact goodBuckets_congr _ _ _ (fun k => by simp) h
  | cons r rest ih =>
    intro b g h
    simp only [List.foldl_cons]
    have h2 := ih _ _ (goodBuckets_bump (bucketKey r) b g h)
    refine goodBuckets_congr _ _ _ (fun k => ?_) h2
    rw [List.countP_cons]
    simp only [addOne]
    by_cases hk : bucketKey r = k
    · subst hk
      simp
      omega
    · have hk' : ¬ (k = bucketKey r) := fun e => hk e.symm
      simp [hk, hk']

/-- C7: the heatmap has an entry for the key `(round3 lat, round3 lng)` with
count `c` exactly when `c` is the positive number of stored reports whose
coordinates round to that pair — so reports share a bucket exactly when both
rounded coordinates agree, and each count is the bucket's size. -/
theorem heatmap_buckets_spec (reports : List Report) (k : ℚ × ℚ) (c : Nat) :
    (k, c) ∈ heatmap reports ↔
      (c = reports.countP (fun r => decide (bucketKey r = k)) ∧ c ≠ 0) := by
  rw [(heatmap_good reports).2 k c]
  exact ⟨fun ⟨a, b⟩ => ⟨a.symm, b⟩, fun ⟨a, b⟩ => ⟨a.symm, b⟩⟩

/-! ## Nearby reports (app.nearby_reports)

Distances use real-number trigonometry, so this part of the embedding is over
`ℝ` and noncomputable. -/

/-- Python `math.radians` as used through `radians(...)` in `haversine`. -/
noncomputable def radians (x : ℝ) : ℝ := x * Real.pi / 180

/-- Python `math.atan2 y x`, the argument of the complex number `x + y i`. -/
noncomputable def atan2 (y x : ℝ) : ℝ := Complex.arg (Complex.mk x y)

/-- Embedding of the helper `haversine` in app.py (distance in km on a
sphere of radius 6371). -/
noncomputable def haversine (lat1 lon1 lat2 lon2 : ℝ) : ℝ :=
  let dlat := radians (lat2 - lat1)
  let dlon := radians (lon2 - lon1)
  let a := Real.sin (dlat / 2) ^ 2 +
    Real.cos (radians lat1) * Real.cos (radians lat2) * Real.sin (dlon / 2) ^ 2
  let c := 2 * atan2 (Real.sqrt a) (Real.sqrt (1 - a))
  6371 * c

/-- The radius the handler actually uses:
`request.args.get("radius_km", type=float) or 0.5` — a missing/unparseable
radius is `None` and a parsed `0.0` is falsy, so both fall back to 0.5. -/
noncomputable def effectiveRadius (radiusParam : Option ℝ) : ℝ :=
  match radiusParam with
  | none => 1/2
  | some r => if r = 0 then 1/2 else r

/-- Embedding of the `GET /api/reports/nearby` handler: each stored report is
paired with its haversine distance to the query point, kept when the distance
is at most the effective radius, and the result is sorted by distance. -/
noncomputable def nearby_reports (lat lng : ℝ) (radiusParam : Option ℝ)
    (reports : List Report) : List (Report × ℝ) :=
  ((reports.map
      (fun r => (r, haversine lat lng (r.latitude : ℝ) (r.longitude : ℝ)))).filter
        (fun p => decide (p.2 ≤ effectiveRadius radiusParam))).mergeSort
    (fun p q => decide (p.2 ≤ q.2))

/-- Amended C3: for every query, the returned list contains exactly the
stored reports whose haversine distance to the query point is at most the
effective radius (the given radius, except that a radius of 0 — like an
absent one — is replaced by the 0.5 km default), each paired with that
distance, and the list is sorted in ascending order of distance. -/
theorem nearby_reports_spec (lat lng : ℝ) (radiusParam : Option ℝ)
    (reports : List Report) :
    (∀ rep d, ((rep, d) ∈ nearby_reports lat lng radiusParam reports ↔
      (rep ∈ reports ∧ d = haversine lat lng (rep.latitude : ℝ) (rep.longitude : ℝ) ∧
       d ≤ effectiveRadius radiusParam))) ∧
    (nearby_reports lat lng radiusParam reports).Pairwise (fun p q => p.2 ≤ q.2) := by
  constructor
  · intro rep d
    unfold nearby_reports
    rw [List.mem_mergeSort, List.mem_filter]
    constructor
    · rintro ⟨hmem, hle⟩
      obtain ⟨r, hr, heq⟩ := List.mem_map.mp hmem
      obtain ⟨h1, h2⟩ := Prod.mk.injEq .. ▸ heq
      subst h1
      subst h2
      exact ⟨hr, rfl, of_decide_eq_true hle⟩
    · rintro ⟨hmem, rfl, hle⟩
      exact ⟨List.mem_map.mpr ⟨rep, hmem, rfl⟩, decide_eq_true hle⟩
  · unfold nearby_reports
    refine List.Pairwise.imp (fun h => of_decide_eq_true h)
      (List.sorted_mergeSort ?_ ?_ _)
    · intro a b c h1 h2
      exact decide_eq_true (le_trans (of_decide_eq_true h1) (of_decide_eq_true h2))
    · intro a b
      rcases le_total a.2 b.2 with h | h <;> simp [h]

/-- Distance from the origin to a point on the equator `b` degrees east, in
closed form, for `0 ≤ b ≤ 180`. -/
lemma haversine_equator (b : ℝ) (hb1 : 0 ≤ b) (hb2 : b ≤ 180) :
    haversine 0 0 0 b = 6371 * (b * Real.pi / 180) := by
  have hpi := Real.pi_pos
  have hX1 : 0 ≤ b * Real.pi / 360 := by positivity
  have hX2 : b * Real.pi / 360 ≤ Real.pi / 2 := by nlinarith
  have hs : 0 ≤ Real.sin (b * Real.pi / 360) :=
    Real.sin_nonneg_of_nonneg_of_le_pi hX1 (by nlinarith)
  have hc : 0 ≤ Real.cos (b * Real.pi / 360) :=
    Real.cos_nonneg_of_mem_Icc ⟨by nlinarith, hX2⟩
  have h2 : 1 - Real.sin (b * Real.pi / 360) ^ 2 = Real.cos (b * Real.pi / 360) ^ 2 := by
    have := Real.sin_sq_add_cos_sq (b * Real.pi / 360)
    linarith
  have hIoc : b * Real.pi / 360 ∈ Set.Ioc (-Real.pi) Real.pi :=
    ⟨by nlinarith, by nlinarith⟩
  simp only [haversine, radians, atan2]
  rw [show ((0:ℝ) - 0) * Real.pi / 180 = 0 by ring]
  rw [show ((0:ℝ)) * Real.pi / 180 = 0 by ring]
  rw [show ((0:ℝ)) / 2 = 0 by norm_num]
  rw [Real.sin_zero, Real.cos_zero]
  rw [show (b - 0 : ℝ) * Real.pi / 180 / 2 = b * Real.pi / 360 by ring]
  rw [show (0:ℝ) ^ 2 + 1 * 1 * Real.sin (b * Real.pi / 360) ^ 2 =
      Real.sin (b * Real.pi / 360) ^ 2 by ring]
  rw [Real.sqrt_sq hs, h2, Real.sqrt_sq hc]
  rw [Complex.mk_eq_add_mul_I, Complex.ofReal_cos, Complex.ofReal_sin]
  rw [Complex.arg_cos_add_sin_mul_I hIoc]
  ring

/-- Stored report 0.001 degrees of longitude east of the origin, about 111 m
away from it. -/
def nearReport : Report :=
  { id := 1
    report_type := "robo"
    description := "incidente"
    latitude := 0
    longitude := mkRat 1 1000
    image_path := none
    created_at := 0
    risk_level := "bajo"
    has_weapon := false
    has_vehicle := false
    plate_text := none
    status := "pendiente"
    source := "ciudadano"
    ai_raw_summary := none
    ai_confidence := 0 }

/-- The haversine distance from the origin to `nearReport`. -/
noncomputable def nearDist : ℝ :=
  haversine 0 0 ((nearReport.latitude : ℚ) : ℝ) ((nearReport.longitude : ℚ) : ℝ)

lemma nearDist_eq : nearDist = 6371 * ((1/1000) * Real.pi / 180) := by
  have hlat : ((nearReport.latitude : ℚ) : ℝ) = 0 := by
    norm_num [nearReport]
  have hlon : ((nearReport.longitude : ℚ) : ℝ) = 1/1000 := by
    norm_num [nearReport, Rat.mkRat_eq_div]
  unfold nearDist
  rw [hlat, hlon, haversine_equator (1/1000) (by norm_num) (by norm_num)]

/-- Counterexample to C3 as stated: querying from the origin with the
parseable radius 0, the stored report at positive distance (about 0.111 km)
is nevertheless returned, because the handler replaces a radius of 0 by the
0.5 km default. -/
theorem nearby_radius_zero_counterexample :
    (nearReport, nearDist) ∈ nearby_reports 0 0 (some 0) [nearReport] ∧
    ¬ (nearDist ≤ 0) := by
  have hpos : 0 < nearDist := by
    rw [nearDist_eq]
    positivity
  have hle : nearDist ≤ effectiveRadius (some 0) := by
    have he : effectiveRadius (some 0) = 1/2 := by
      simp [effectiveRadius]
    rw [he, nearDist_eq]
    nlinarith [Real.pi_lt_four]
  refine ⟨?_, fun h => absurd hpos (not_lt.mpr h)⟩
  unfold nearby_reports
  rw [List.mem_mergeSort, List.mem_filter]
  exact ⟨List.mem_map.mpr ⟨nearReport, List.mem_singleton.mpr rfl, rfl⟩,
    decide_eq_true hle⟩

end AlertaVecinal
